import Mathlib

/-
Verification of the configuration resolution and validation engine in
`chemprop/parsing.py` (`modify_train_args` together with
`update_args_from_checkpoint_dir`).

The shallow embedding below translates the Python code line by line:

* the argparse `Namespace` produced by `add_train_args` becomes the record
  `RawArgs` (only the fields that `modify_train_args` reads or writes are
  included; the remaining options are passed through untouched by the code
  and play no role in any property);
* the filesystem (`os.walk`, `os.path.exists`, `os.path.isdir`, the
  `TemporaryDirectory` name) becomes the record `FS` of query functions;
* Python `raise`/`assert` become `Except Err`, with one `Err` constructor
  per distinct failure site (the names follow the error taxonomy of the
  specification; every `assert` raises a bare `AssertionError` in Python,
  and the sites are distinct, so each site is mapped to the taxonomy name
  the specification gives it);
* Python floats become exact rationals `ℚ` (the properties at issue are
  about sequence lengths and which elementwise products are formed, not
  about rounding);
* the in-place mutation of the namespace becomes sequential `let`
  rebinding inside one `Except` do-block, in exactly the source order;
  `del args.<field>` is modeled by the field being absent from the output
  record `Resolved`.
-/

/-- Failure outcomes of resolution.  The typed names follow the
specification's error taxonomy; `typeError` and `indexError` model the
untyped Python `TypeError` / `IndexError` crashes that are reachable in
the source. -/
inductive Err where
  | unsupportedKernelFunction : Option String → Err
  | incompatibleMetric : Option String → String → Err
  | noCheckpointsFound : String → Err
  | missingVocabularyNotSupplied : Err
  | missingVocabulary : String → Err
  | typeError : Err
  | incompatibleMode : Err
  | missingFeatureSource : Err
  | invalidGroupCount : Err
  | invalidLayerCount : Err
  | invalidSplitConfiguration : Err
  | indexError : Err
deriving DecidableEq, Repr

/-- The filesystem as seen by `modify_train_args`: `walk d` lists, in
`os.walk` order, the pairs (root, regular files directly in that root)
under `d` (the directory component of each triple is unused by the
source and omitted); `pathExists` is `os.path.exists` on a string;
`isDir` is `os.path.isdir`; `tempDirName` is the name of the
process-lifetime `TemporaryDirectory` allocated when no save directory
was supplied. -/
structure FS where
  walk : String → List (String × List String)
  pathExists : String → Bool
  isDir : String → Bool
  tempDirName : String

/-- `os.path.join root fname` for the flat joins performed by the source. -/
def pathJoin (root fname : String) : String := root ++ "/" ++ fname

/-- The raw option bag: the argparse namespace after `add_train_args`
parsing, restricted to the fields `modify_train_args` touches.  Optional
string/list options default to `none` (Python `None`); every field that
argparse declares is present (in particular `vocab_path` is always an
attribute of the namespace, holding `None` when not supplied). -/
structure RawArgs where
  data_path : String
  test : Bool
  vocab_path : Option String
  features_generator : Option (List String)
  features_path : Option String
  predict_features : Bool
  predict_features_and_task : Bool
  save_dir : Option String
  checkpoint_dir : Option String
  dataset_type : String
  split_type : String
  scaffold_overlap : Option ℚ
  folds_file : Option String
  test_fold_index : Option Int
  metric : Option String
  no_cuda : Bool
  epochs : Nat
  warmup_epochs : List ℚ
  separate_ffn_lr : Bool
  init_lr : List ℚ
  max_lr : List ℚ
  final_lr : List ℚ
  lr_scaler : List ℚ
  weight_decay : List ℚ
  no_target_scaling : Bool
  no_features_scaling : Bool
  bert_vocab_func : String
  kernel_func : Option String
  ensemble_size : Nat
  hidden_size : Int
  dropout : ℚ
  jtnn : Bool
  ffn_input_dropout : Option ℚ
  ffn_dropout : Option ℚ
  ffn_hidden_size : Option Int
  ffn_num_layers : Int
  features_only : Bool
deriving DecidableEq

/-- The resolved configuration: the namespace after `modify_train_args`
returns.  The `no_*` flags and `lr_scaler` are deleted by the source
(`del args.no_cuda`, `del args.no_target_scaling`,
`del args.no_features_scaling`, `del args.lr_scaler`) and therefore do
not appear here; `cuda`, `target_scaling`, `features_scaling`,
`minimize_score`, `use_input_features`, `num_lrs`, `checkpoint_paths`
and `prespecified_chunk_dir` are the derived fields the source creates. -/
structure Resolved where
  data_path : String
  test : Bool
  vocab_path : Option String
  features_generator : Option (List String)
  features_path : Option String
  predict_features : Bool
  predict_features_and_task : Bool
  save_dir : String
  checkpoint_dir : Option String
  checkpoint_paths : Option (List String)
  dataset_type : String
  split_type : String
  scaffold_overlap : Option ℚ
  folds_file : Option String
  test_fold_index : Option Int
  metric : Option String
  cuda : Bool
  target_scaling : Bool
  features_scaling : Bool
  minimize_score : Bool
  epochs : Nat
  warmup_epochs : List ℚ
  separate_ffn_lr : Bool
  num_lrs : Nat
  init_lr : List ℚ
  max_lr : List ℚ
  final_lr : List ℚ
  weight_decay : List ℚ
  bert_vocab_func : String
  kernel_func : Option String
  ensemble_size : Nat
  hidden_size : Int
  dropout : ℚ
  jtnn : Bool
  use_input_features : Bool
  ffn_input_dropout : ℚ
  ffn_dropout : ℚ
  ffn_hidden_size : Int
  ffn_num_layers : Int
  features_only : Bool
  prespecified_chunk_dir : Option String
deriving DecidableEq

/-- Lines 336-353: metric defaulting.  Mirrors the `if args.metric is
None` block; inside that block `args.metric` is `None`, so the
`bert_pretraining` whitelist test `args.metric not in [...]` is written
on the (known-`None`) metric exactly as in the source. -/
def default_metric (a : RawArgs) : Except Err (Option String) :=
  match a.metric with
  | some m => Except.ok (some m)
  | none =>
    if a.dataset_type = "classification" then Except.ok (some "auc")
    else if a.dataset_type = "unsupervised" then Except.ok (some "log_loss")
    else if a.dataset_type = "bert_pretraining" then
      if a.bert_vocab_func = "feature_vector" then Except.ok (some "rmse")
      else
        if a.metric ∈ ([some "log_loss", some "argmax_accuracy",
                        some "majority_baseline_accuracy"] : List (Option String)) then
          Except.ok a.metric
        else Except.ok (some "log_loss")
    else if a.dataset_type = "kernel" then
      if a.kernel_func ∈ ([some "features", some "features_dot", some "WL"] :
          List (Option String)) then
        Except.ok (some "rmse")
      else Except.error (Err.unsupportedKernelFunction a.kernel_func)
    else Except.ok (some "rmse")

/-- Lines 355-359: the metric/dataset-type compatibility check, with the
source's exact boolean structure
`not (A or B or C) and not dataset_type in ['unsupervised','bert_pretraining']`. -/
def metric_check (dt : String) (metric : Option String) : Except Err Unit :=
  if ¬(dt = "classification" ∧
         metric ∈ ([some "auc", some "prc-auc", some "accuracy"] : List (Option String)) ∨
       (dt = "regression" ∨ dt = "regression_with_binning") ∧
         metric ∈ ([some "rmse", some "mae", some "r2"] : List (Option String)) ∨
       dt = "kernel" ∧ metric ∈ ([some "rmse"] : List (Option String))) ∧
     ¬(dt ∈ (["unsupervised", "bert_pretraining"] : List String)) then
    Except.error (Err.incompatibleMetric metric dt)
  else Except.ok ()

/-- The inner double loop of `update_args_from_checkpoint_dir` (lines
306-309): walk the directory and collect, in walk order, the joined
paths of the files named `model.pt`. -/
def collect_model_pt : List (String × List String) → List String
  | [] => []
  | (root, files) :: rest =>
      files.filterMap
        (fun fname => if fname = "model.pt" then some (pathJoin root fname) else none)
        ++ collect_model_pt rest

/-- Lines 298-314: `update_args_from_checkpoint_dir`.  Takes the
checkpoint directory and the directly-supplied ensemble size, returns
the new `(checkpoint_paths, ensemble_size)` pair: `None` leaves the
ensemble size untouched; a supplied directory replaces the ensemble
size with the number of discovered checkpoints and fails when that
number is zero. -/
def update_args_from_checkpoint_dir (checkpoint_dir : Option String)
    (ensemble_size : Nat) (fs : FS) : Except Err (Option (List String) × Nat) :=
  match checkpoint_dir with
  | none => Except.ok (none, ensemble_size)
  | some dir =>
      let checkpoint_paths := collect_model_pt (fs.walk dir)
      let ensemble_size := checkpoint_paths.length
      if ensemble_size = 0 then Except.error (Err.noCheckpointsFound dir)
      else Except.ok (some checkpoint_paths, ensemble_size)

/-- `hasattr(args, 'vocab_path')` on a namespace produced by
`add_train_args`: argparse declares `--vocab_path` (default `None`), so
the attribute is always present and this test is constantly true. -/
def vocab_path_attr_present : Bool := true

/-- Lines 365-369: the junction-tree vocabulary check.  When
`vocab_path` is `None`, control reaches `os.path.exists(None)`, which
raises an untyped `TypeError` in Python 3 (the `hasattr` guard never
fires, see `vocab_path_attr_present`). -/
def jtnn_vocab_check (jtnn : Bool) (vocab_path : Option String) (fs : FS) :
    Except Err Unit :=
  if jtnn then
    if ¬(vocab_path_attr_present = true) then Except.error Err.missingVocabularyNotSupplied
    else
      match vocab_path with
      | none => Except.error Err.typeError
      | some p =>
          if ¬(fs.pathExists p = true) then Except.error (Err.missingVocabulary p)
          else Except.ok ()
  else Except.ok ()

/-- Python truthiness of an optional list value (`args.features_generator`):
`None` and the empty list are falsy. -/
def truthyList : Option (List String) → Bool
  | none => false
  | some l => !l.isEmpty

/-- Python truthiness of an optional string value (`args.features_path`):
`None` and the empty string are falsy. -/
def truthyStr : Option String → Bool
  | none => false
  | some s => !s.isEmpty

/-- Lines 371-383: derivation of `use_input_features` and
`predict_features`.  Returns the final `(predict_features,
use_input_features)` pair.  The initial `use_input_features` is the
truthiness of `args.features_generator or args.features_path`; the
downstream consumers read it as a boolean. -/
def feature_flags_step (a : RawArgs) : Except Err (Bool × Bool) :=
  -- line 371
  let use_input_features := truthyList a.features_generator || truthyStr a.features_path
  -- lines 373-375
  match (if a.predict_features_and_task then
           (if a.dataset_type = "regression" then Except.ok true
            else Except.error Err.incompatibleMode)
         else Except.ok a.predict_features : Except Err Bool) with
  | Except.error e => Except.error e
  | Except.ok predict_features =>
    -- lines 377-379
    match (if predict_features = true ∨
              a.kernel_func ∈ ([some "features", some "features_dot"] :
                List (Option String)) then
             (if truthyList a.features_generator || truthyStr a.features_path then
                Except.ok false
              else Except.error Err.missingFeatureSource)
           else Except.ok use_input_features : Except Err Bool) with
    | Except.error e => Except.error e
    | Except.ok use_input_features =>
      -- lines 381-383
      match (if a.dataset_type = "bert_pretraining" then
               (if a.features_only then Except.error Err.incompatibleMode
                else Except.ok false)
             else Except.ok use_input_features : Except Err Bool) with
      | Except.error e => Except.error e
      | Except.ok use_input_features => Except.ok (predict_features, use_input_features)

/-- The broadcasting applied to one rate sequence once its length check
has passed (line 394): `lr_param *= 2` duplicates a singleton list when
a separate FFN optimizer is in use. -/
def broadcastFn (sep : Bool) (xs : List ℚ) : List ℚ :=
  if sep = true ∧ xs.length = 1 then xs ++ xs else xs

/-- Lines 390-394 for one of the six rate sequences: the
`assert 1 <= len(lr_param) <= args.num_lrs` length check followed by
singleton duplication. -/
def broadcast_lr (sep : Bool) (num_lrs : Nat) (xs : List ℚ) : Except Err (List ℚ) :=
  if 1 ≤ xs.length ∧ xs.length ≤ num_lrs then Except.ok (broadcastFn sep xs)
  else Except.error Err.invalidGroupCount

/-- Lines 396-399 for one rate sequence: `args.<seq>[i] *= args.lr_scaler[i]`
for `i in range(num_lrs)`.  After broadcasting both lists have exactly
`num_lrs` entries, so the index loop is the elementwise product. -/
def scale_lr (xs scaler : List ℚ) : List ℚ :=
  List.zipWith (fun x s => x * s) xs scaler

/-- Line 412: `(args.split_type == 'scaffold_overlap') == (args.scaffold_overlap is not None)`. -/
def split_overlap_ok (a : RawArgs) : Bool :=
  (a.split_type == "scaffold_overlap") == a.scaffold_overlap.isSome

/-- Line 413: the chained comparison
`(split_type == 'predetermined') == (folds_file is not None) == (test_fold_index is not None)`,
which in Python is the conjunction of the two adjacent equalities. -/
def split_predetermined_ok (a : RawArgs) : Bool :=
  ((a.split_type == "predetermined") == a.folds_file.isSome) &&
    (a.folds_file.isSome == a.test_fold_index.isSome)

/-- A Python `assert cond`, raising at this site the typed error the
specification assigns to the check. -/
def assertB (b : Bool) (e : Err) : Except Err Unit :=
  if b then Except.ok () else Except.error e

/-- Lines 418-424: chunked-data detection.  If `data_path` is a
directory, record it as the chunk directory and rewrite `data_path` to
`os.path.join(root, names[0])` for the first walked root, breaking out
of the loop; `names[0]` on an empty file list raises an untyped
`IndexError`.  Returns the new `(data_path, prespecified_chunk_dir)`. -/
def chunk_step (data_path : String) (fs : FS) : Except Err (String × Option String) :=
  if fs.isDir data_path then
    match fs.walk data_path with
    | [] => Except.ok (data_path, some data_path)
    | (root, names) :: _ =>
        match names with
        | [] => Except.error Err.indexError
        | n0 :: _ => Except.ok (pathJoin root n0, some data_path)
  else Except.ok (data_path, none)

/-- Lines 317-424: `modify_train_args`, in source order.  `cudaAvailable`
is `torch.cuda.is_available()`. -/
def modify_train_args (a : RawArgs) (fs : FS) (cudaAvailable : Bool) :
    Except Err Resolved := do
  -- lines 321-325: save_dir, or a process-lifetime temporary directory
  let save_dir := match a.save_dir with
    | some d => d
    | none => fs.tempDirName
  -- lines 327-334: boolean inversions; the no_* fields are deleted
  let cuda := !a.no_cuda && cudaAvailable
  let target_scaling := !a.no_target_scaling
  let features_scaling := !a.no_features_scaling
  -- lines 336-353
  let metric ← default_metric a
  -- lines 355-359
  let _ ← metric_check a.dataset_type metric
  -- line 361
  let minimize_score :=
    decide (metric ∈ ([some "rmse", some "mae", some "log_loss"] : List (Option String)))
  -- line 363: cpes = (checkpoint_paths, ensemble_size)
  let cpes ← update_args_from_checkpoint_dir a.checkpoint_dir a.ensemble_size fs
  -- lines 365-369
  let _ ← jtnn_vocab_check a.jtnn a.vocab_path fs
  -- lines 371-383: pfu = (predict_features, use_input_features)
  let pfu ← feature_flags_step a
  -- lines 385-386
  let separate_ffn_lr := if a.dataset_type = "unsupervised" then true else a.separate_ffn_lr
  -- line 388
  let num_lrs := 1 + (if separate_ffn_lr then 1 else 0)
  -- lines 389-394, in the order of the lr_params list
  let init_lr ← broadcast_lr separate_ffn_lr num_lrs a.init_lr
  let max_lr ← broadcast_lr separate_ffn_lr num_lrs a.max_lr
  let final_lr ← broadcast_lr separate_ffn_lr num_lrs a.final_lr
  let lr_scaler ← broadcast_lr separate_ffn_lr num_lrs a.lr_scaler
  let warmup_epochs ← broadcast_lr separate_ffn_lr num_lrs a.warmup_epochs
  let weight_decay ← broadcast_lr separate_ffn_lr num_lrs a.weight_decay
  -- lines 396-399
  let init_lr := scale_lr init_lr lr_scaler
  let max_lr := scale_lr max_lr lr_scaler
  let final_lr := scale_lr final_lr lr_scaler
  -- line 401: del args.lr_scaler (the scale vector is consumed here and
  -- is not a field of Resolved)
  -- line 403
  let _ ← assertB (decide (1 ≤ a.ffn_num_layers)) Err.invalidLayerCount
  -- lines 405-410
  let ffn_hidden_size := match a.ffn_hidden_size with
    | none => a.hidden_size
    | some v => v
  let ffn_input_dropout := match a.ffn_input_dropout with
    | none => a.dropout
    | some v => v
  let ffn_dropout := match a.ffn_dropout with
    | none => a.dropout
    | some v => v
  -- lines 412-413
  let _ ← assertB (split_overlap_ok a) Err.invalidSplitConfiguration
  let _ ← assertB (split_predetermined_ok a) Err.invalidSplitConfiguration
  -- lines 415-416
  let epochs := if a.test then 0 else a.epochs
  -- lines 418-424: dpc = (data_path, prespecified_chunk_dir)
  let dpc ← chunk_step a.data_path fs
  pure
    { data_path := dpc.1
      test := a.test
      vocab_path := a.vocab_path
      features_generator := a.features_generator
      features_path := a.features_path
      predict_features := pfu.1
      predict_features_and_task := a.predict_features_and_task
      save_dir := save_dir
      checkpoint_dir := a.checkpoint_dir
      checkpoint_paths := cpes.1
      dataset_type := a.dataset_type
      split_type := a.split_type
      scaffold_overlap := a.scaffold_overlap
      folds_file := a.folds_file
      test_fold_index := a.test_fold_index
      metric := metric
      cuda := cuda
      target_scaling := target_scaling
      features_scaling := features_scaling
      minimize_score := minimize_score
      epochs := epochs
      warmup_epochs := warmup_epochs
      separate_ffn_lr := separate_ffn_lr
      num_lrs := num_lrs
      init_lr := init_lr
      max_lr := max_lr
      final_lr := final_lr
      weight_decay := weight_decay
      bert_vocab_func := a.bert_vocab_func
      kernel_func := a.kernel_func
      ensemble_size := cpes.2
      hidden_size := a.hidden_size
      dropout := a.dropout
      jtnn := a.jtnn
      use_input_features := pfu.2
      ffn_input_dropout := ffn_input_dropout
      ffn_dropout := ffn_dropout
      ffn_hidden_size := ffn_hidden_size
      ffn_num_layers := a.ffn_num_layers
      features_only := a.features_only
      prespecified_chunk_dir := dpc.2 }

/-- A filesystem with no directories, no existing paths and no walk
results: the shape seen by a run on a plain CSV data path with no
checkpoint directory. -/
def exFS : FS :=
  { walk := fun _ => []
    pathExists := fun _ => false
    isDir := fun _ => false
    tempDirName := "/tmp/chemprop" }

/-- A plain regression configuration on which resolution succeeds: every
list option at its length-1 shape, no optional path supplied. -/
def exBase : RawArgs :=
  { data_path := "data.csv"
    test := false
    vocab_path := none
    features_generator := none
    features_path := none
    predict_features := false
    predict_features_and_task := false
    save_dir := some "save"
    checkpoint_dir := none
    dataset_type := "regression"
    split_type := "random"
    scaffold_overlap := none
    folds_file := none
    test_fold_index := none
    metric := none
    no_cuda := true
    epochs := 30
    warmup_epochs := [2]
    separate_ffn_lr := false
    init_lr := [1]
    max_lr := [1]
    final_lr := [1]
    lr_scaler := [1]
    weight_decay := [0]
    no_target_scaling := false
    no_features_scaling := false
    bert_vocab_func := "feature_vector"
    kernel_func := none
    ensemble_size := 1
    hidden_size := 300
    dropout := 0
    jtnn := false
    ffn_input_dropout := none
    ffn_dropout := none
    ffn_hidden_size := none
    ffn_num_layers := 2
    features_only := false }

/-- Kernel dataset type with no metric supplied and no kernel function:
the unsupported-kernel-function failure input. -/
def exKernelNoFunc : RawArgs := { exBase with dataset_type := "kernel" }

/-- Kernel pretraining with a feature-based kernel and a features path
supplied, but no feature-prediction pretraining mode requested. -/
def exKernelFeatures : RawArgs :=
  { exBase with dataset_type := "kernel"
                kernel_func := some "features"
                features_path := some "feats.csv" }

/-- Feature-based kernel with no input-feature source at all. -/
def exKernelNoSource : RawArgs :=
  { exBase with dataset_type := "kernel", kernel_func := some "features" }

/-- Junction-tree mode requested without a vocabulary path. -/
def exJtnnNoVocab : RawArgs := { exBase with jtnn := true }

/-- Unsupervised dataset type, caller leaving the separate-FFN-optimizer
flag off. -/
def exUnsupervised : RawArgs := { exBase with dataset_type := "unsupervised" }

/-- Separate FFN optimizer requested with every rate sequence of length 1. -/
def exSeparate : RawArgs := { exBase with separate_ffn_lr := true }

/-- An initial-learning-rate sequence of two entries while only one
learning-rate group exists. -/
def exBadLrLen : RawArgs := { exBase with init_lr := [1, 1] }

/-- Predetermined split with a folds file but no test-fold index. -/
def exPredeterminedNoIdx : RawArgs :=
  { exBase with split_type := "predetermined", folds_file := some "folds.pkl" }

/-- Classification with an incompatible (regression) metric and a
checkpoint directory supplied. -/
def exBadMetricWithCkpt : RawArgs :=
  { exBase with dataset_type := "classification"
                metric := some "rmse"
                checkpoint_dir := some "ckpt" }

/-- A filesystem whose checkpoint directory `ckpt` exists but contains
no `model.pt` artifact anywhere. -/
def exFSEmptyCkpt : FS :=
  { exFS with walk := fun d => if d = "ckpt" then [("ckpt", ["notes.txt"])] else [] }

/-- A filesystem with two `model.pt` artifacts nested under `ckpt`. -/
def exFSTwoCkpts : FS :=
  { exFS with
      walk := fun d =>
        if d = "ckpt" then
          [("ckpt", ["model.pt", "notes.txt"]), ("ckpt/sub", ["model.pt"])]
        else [] }

/-- A data path that is a directory holding one chunk file `a.csv`. -/
def exFSChunkDir : FS :=
  { exFS with
      walk := fun d => if d = "chunks" then [("chunks", ["a.csv"])] else []
      isDir := fun d => d == "chunks" }

/-- A data path that is a directory whose first walked root holds no
regular files. -/
def exFSChunkDirEmpty : FS :=
  { exFS with
      walk := fun d => if d = "chunks" then [("chunks", [])] else []
      isDir := fun d => d == "chunks" }

/-- Raw args whose data path is the chunk directory. -/
def exChunk : RawArgs := { exBase with data_path := "chunks" }

/-- The raw option bag equivalent to a resolved configuration: every
registry field carries its resolved value; the fields the resolver
deleted (`no_*`, `lr_scaler`) are re-supplied in their raw sense, the
consumed scale vector at its registry default `[1.0]`. -/
def toRawBag (r : Resolved) : RawArgs :=
  { data_path := r.data_path
    test := r.test
    vocab_path := r.vocab_path
    features_generator := r.features_generator
    features_path := r.features_path
    predict_features := r.predict_features
    predict_features_and_task := r.predict_features_and_task
    save_dir := some r.save_dir
    checkpoint_dir := r.checkpoint_dir
    dataset_type := r.dataset_type
    split_type := r.split_type
    scaffold_overlap := r.scaffold_overlap
    folds_file := r.folds_file
    test_fold_index := r.test_fold_index
    metric := r.metric
    no_cuda := !r.cuda
    epochs := r.epochs
    warmup_epochs := r.warmup_epochs
    separate_ffn_lr := r.separate_ffn_lr
    init_lr := r.init_lr
    max_lr := r.max_lr
    final_lr := r.final_lr
    lr_scaler := [1]
    weight_decay := r.weight_decay
    no_target_scaling := !r.target_scaling
    no_features_scaling := !r.features_scaling
    bert_vocab_func := r.bert_vocab_func
    kernel_func := r.kernel_func
    ensemble_size := r.ensemble_size
    hidden_size := r.hidden_size
    dropout := r.dropout
    jtnn := r.jtnn
    ffn_input_dropout := some r.ffn_input_dropout
    ffn_dropout := some r.ffn_dropout
    ffn_hidden_size := some r.ffn_hidden_size
    ffn_num_layers := r.ffn_num_layers
    features_only := r.features_only }

theorem exbind_ok {ε α β : Type} {x : Except ε α} {f : α → Except ε β} {b : β} :
    (x >>= f = Except.ok b) ↔ ∃ a, x = Except.ok a ∧ f a = Except.ok b := by
  cases x <;> simp [Bind.bind, Except.bind]

theorem exbind_error {ε α β : Type} {x : Except ε α} {f : α → Except ε β} {e : ε} :
    (x >>= f = Except.error e) ↔
      (x = Except.error e ∨ ∃ a, x = Except.ok a ∧ f a = Except.error e) := by
  cases x <;> simp [Bind.bind, Except.bind]

theorem expure_ok {ε α : Type} {x b : α} :
    ((pure x : Except ε α) = Except.ok b) ↔ x = b := by
  simp [pure, Except.pure]

theorem assertB_ok {b : Bool} {e : Err} {u : Unit} :
    (assertB b e = Except.ok u) ↔ b = true := by
  cases b <;> simp [assertB]

theorem assertB_error {b : Bool} {e e2 : Err} :
    (assertB b e = Except.error e2) ↔ (b = false ∧ e2 = e) := by
  cases b <;> simp [assertB, eq_comm]

theorem broadcast_lr_ok {sep : Bool} {n : Nat} {xs ys : List ℚ} :
    (broadcast_lr sep n xs = Except.ok ys) ↔
      ((1 ≤ xs.length ∧ xs.length ≤ n) ∧ ys = broadcastFn sep xs) := by
  unfold broadcast_lr
  split <;> simp_all [eq_comm]

theorem broadcast_lr_error {sep : Bool} {n : Nat} {xs : List ℚ} {e : Err} :
    (broadcast_lr sep n xs = Except.error e) ↔
      (¬(1 ≤ xs.length ∧ xs.length ≤ n) ∧ e = Err.invalidGroupCount) := by
  unfold broadcast_lr
  split <;> simp_all [eq_comm]

/-- The number of learning-rate groups derived at line 388, as a function
of the raw bag (taking the unsupervised forcing at lines 385-386 into
account). -/
def num_lrs_of (a : RawArgs) : Nat :=
  1 + (if (if a.dataset_type = "unsupervised" then true else a.separate_ffn_lr) then 1 else 0)

/-- The resolved record produced by a successful `modify_train_args` run,
as a function of the raw bag and the results of the effectful steps. -/
def resolvedOf (a : RawArgs) (fs : FS) (cav : Bool) (m : Option String)
    (cpes : Option (List String) × Nat) (pfu : Bool × Bool)
    (dpc : String × Option String) : Resolved :=
  let sep := if a.dataset_type = "unsupervised" then true else a.separate_ffn_lr
  { data_path := dpc.1
    test := a.test
    vocab_path := a.vocab_path
    features_generator := a.features_generator
    features_path := a.features_path
    predict_features := pfu.1
    predict_features_and_task := a.predict_features_and_task
    save_dir := match a.save_dir with
      | some d => d
      | none => fs.tempDirName
    checkpoint_dir := a.checkpoint_dir
    checkpoint_paths := cpes.1
    dataset_type := a.dataset_type
    split_type := a.split_type
    scaffold_overlap := a.scaffold_overlap
    folds_file := a.folds_file
    test_fold_index := a.test_fold_index
    metric := m
    cuda := !a.no_cuda && cav
    target_scaling := !a.no_target_scaling
    features_scaling := !a.no_features_scaling
    minimize_score :=
      decide (m ∈ ([some "rmse", some "mae", some "log_loss"] : List (Option String)))
    epochs := if a.test then 0 else a.epochs
    warmup_epochs := broadcastFn sep a.warmup_epochs
    separate_ffn_lr := sep
    num_lrs := 1 + (if sep then 1 else 0)
    init_lr := scale_lr (broadcastFn sep a.init_lr) (broadcastFn sep a.lr_scaler)
    max_lr := scale_lr (broadcastFn sep a.max_lr) (broadcastFn sep a.lr_scaler)
    final_lr := scale_lr (broadcastFn sep a.final_lr) (broadcastFn sep a.lr_scaler)
    weight_decay := broadcastFn sep a.weight_decay
    bert_vocab_func := a.bert_vocab_func
    kernel_func := a.kernel_func
    ensemble_size := cpes.2
    hidden_size := a.hidden_size
    dropout := a.dropout
    jtnn := a.jtnn
    use_input_features := pfu.2
    ffn_input_dropout := match a.ffn_input_dropout with
      | none => a.dropout
      | some v => v
    ffn_dropout := match a.ffn_dropout with
      | none => a.dropout
      | some v => v
    ffn_hidden_size := match a.ffn_hidden_size with
      | none => a.hidden_size
      | some v => v
    ffn_num_layers := a.ffn_num_layers
    features_only := a.features_only
    prespecified_chunk_dir := dpc.2 }

/-- A successful resolution is exactly: every effectful step succeeded,
every rate sequence passed its length check, the three asserted
validator conditions held, and the output is the canonical record built
from the step results. -/
theorem modify_ok_iff {a : RawArgs} {fs : FS} {cav : Bool} {out : Resolved} :
    modify_train_args a fs cav = Except.ok out ↔
      ∃ m cpes pfu dpc,
        default_metric a = Except.ok m ∧
        metric_check a.dataset_type m = Except.ok () ∧
        update_args_from_checkpoint_dir a.checkpoint_dir a.ensemble_size fs =
          Except.ok cpes ∧
        jtnn_vocab_check a.jtnn a.vocab_path fs = Except.ok () ∧
        feature_flags_step a = Except.ok pfu ∧
        (1 ≤ a.init_lr.length ∧ a.init_lr.length ≤ num_lrs_of a) ∧
        (1 ≤ a.max_lr.length ∧ a.max_lr.length ≤ num_lrs_of a) ∧
        (1 ≤ a.final_lr.length ∧ a.final_lr.length ≤ num_lrs_of a) ∧
        (1 ≤ a.lr_scaler.length ∧ a.lr_scaler.length ≤ num_lrs_of a) ∧
        (1 ≤ a.warmup_epochs.length ∧ a.warmup_epochs.length ≤ num_lrs_of a) ∧
        (1 ≤ a.weight_decay.length ∧ a.weight_decay.length ≤ num_lrs_of a) ∧
        1 ≤ a.ffn_num_layers ∧
        split_overlap_ok a = true ∧
        split_predetermined_ok a = true ∧
        chunk_step a.data_path fs = Except.ok dpc ∧
        out = resolvedOf a fs cav m cpes pfu dpc := by
  unfold modify_train_args resolvedOf num_lrs_of
  simp only [exbind_ok, expure_ok, assertB_ok, broadcast_lr_ok, decide_eq_true_eq]
  constructor
  · rintro ⟨m, hm, u1, hmc, cpes, hcp, u2, hjt, pfu, hff, i0, ⟨hib, rfl⟩, m0, ⟨hmb, rfl⟩,
      f0, ⟨hfb, rfl⟩, s0, ⟨hsb, rfl⟩, w0, ⟨hwb, rfl⟩, d0, ⟨hdb, rfl⟩, u3, hffn, u4, hs1,
      u5, hs2, dpc, hdpc, hout⟩
    exact ⟨m, cpes, pfu, dpc, hm, hmc, hcp, hjt, hff, hib, hmb, hfb, hsb, hwb, hdb,
      hffn, hs1, hs2, hdpc, hout.symm⟩
  · rintro ⟨m, cpes, pfu, dpc, hm, hmc, hcp, hjt, hff, hib, hmb, hfb, hsb, hwb, hdb,
      hffn, hs1, hs2, hdpc, rfl⟩
    exact ⟨m, hm, (), hmc, cpes, hcp, (), hjt, pfu, hff, _, ⟨hib, rfl⟩, _, ⟨hmb, rfl⟩,
      _, ⟨hfb, rfl⟩, _, ⟨hsb, rfl⟩, _, ⟨hwb, rfl⟩, _, ⟨hdb, rfl⟩, (), hffn, (), hs1,
      (), hs2, dpc, hdpc, rfl⟩

theorem modify_error_of_default_metric {a : RawArgs} {fs : FS} {cav : Bool} {e : Err}
    (h : default_metric a = Except.error e) : modify_train_args a fs cav = Except.error e := by
  unfold modify_train_args
  rw [h]
  rfl

theorem resolvedOf_metric {a : RawArgs} {fs : FS} {cav : Bool} {m : Option String}
    {cpes : Option (List String) × Nat} {pfu : Bool × Bool} {dpc : String × Option String} :
    (resolvedOf a fs cav m cpes pfu dpc).metric = m := rfl

theorem resolvedOf_minimize {a : RawArgs} {fs : FS} {cav : Bool} {m : Option String}
    {cpes : Option (List String) × Nat} {pfu : Bool × Bool} {dpc : String × Option String} :
    (resolvedOf a fs cav m cpes pfu dpc).minimize_score =
      decide (m ∈ ([some "rmse", some "mae", some "log_loss"] : List (Option String))) := rfl

/-- Claim C1: with no evaluation metric supplied, the resolved metric is
selected deterministically from the dataset type (classification→auc,
unsupervised→log_loss, bert_pretraining→rmse for the feature_vector
vocabulary function and log_loss otherwise, kernel→rmse for a recognized
kernel function and `UnsupportedKernelFunctionError` otherwise, anything
else→rmse), and in every successful resolution `minimize_score` holds
exactly when the resolved metric is rmse, mae or log_loss. -/
theorem metric_defaulting_matches_dataset_type :
    (∀ (a : RawArgs) (fs : FS) (cav : Bool) (out : Resolved),
       modify_train_args a fs cav = Except.ok out → a.metric = none →
         ((a.dataset_type = "classification" → out.metric = some "auc") ∧
          (a.dataset_type = "unsupervised" → out.metric = some "log_loss") ∧
          (a.dataset_type = "bert_pretraining" →
             out.metric =
               some (if a.bert_vocab_func = "feature_vector" then "rmse" else "log_loss")) ∧
          (a.dataset_type = "kernel" →
             a.kernel_func ∈ ([some "features", some "features_dot", some "WL"] :
               List (Option String)) ∧ out.metric = some "rmse") ∧
          (a.dataset_type ∉ (["classification", "unsupervised", "bert_pretraining",
              "kernel"] : List String) → out.metric = some "rmse"))) ∧
    (∀ (a : RawArgs) (fs : FS) (cav : Bool),
       a.metric = none → a.dataset_type = "kernel" →
       a.kernel_func ∉ ([some "features", some "features_dot", some "WL"] :
           List (Option String)) →
       modify_train_args a fs cav =
         Except.error (Err.unsupportedKernelFunction a.kernel_func)) ∧
    (∀ (a : RawArgs) (fs : FS) (cav : Bool) (out : Resolved),
       modify_train_args a fs cav = Except.ok out →
         (out.minimize_score = true ↔
           out.metric ∈ ([some "rmse", some "mae", some "log_loss"] :
             List (Option String)))) := by
  refine ⟨?_, ?_, ?_⟩
  · intro a fs cav out h hnone
    obtain ⟨m, cpes, pfu, dpc, hm, -, -, -, -, -, -, -, -, -, -, -, -, -, -, hout⟩ :=
      modify_ok_iff.mp h
    subst hout
    rw [resolvedOf_metric]
    refine ⟨?_, ?_, ?_, ?_, ?_⟩
    · intro hdt
      simp [default_metric, hnone, hdt] at hm
      exact hm.symm
    · intro hdt
      simp [default_metric, hnone, hdt] at hm
      exact hm.symm
    · intro hdt
      by_cases hv : a.bert_vocab_func = "feature_vector" <;>
        simp [default_metric, hnone, hdt, hv] at hm <;> simp [hv, hm.symm]
    · intro hdt
      by_cases hk : a.kernel_func ∈ ([some "features", some "features_dot", some "WL"] :
          List (Option String))
      · simp [default_metric, hnone, hdt, hk] at hm
        exact ⟨hk, hm.symm⟩
      · simp [default_metric, hnone, hdt, hk] at hm
    · intro hdt
      simp at hdt
      simp [default_metric, hnone, hdt.1, hdt.2.1, hdt.2.2.1, hdt.2.2.2] at hm
      exact hm.symm
  · intro a fs cav hnone hdt hk
    apply modify_error_of_default_metric
    simp [default_metric, hnone, hdt, hk]
  · intro a fs cav out h
    obtain ⟨m, cpes, pfu, dpc, -, -, -, -, -, -, -, -, -, -, -, -, -, -, -, hout⟩ :=
      modify_ok_iff.mp h
    subst hout
    rw [resolvedOf_metric, resolvedOf_minimize]
    simp

theorem metric_defaulting_matches_dataset_type_witness :
    modify_train_args exKernelNoFunc exFS false =
      Except.error (Err.unsupportedKernelFunction none) := by
  have h := metric_defaulting_matches_dataset_type.2.1 exKernelNoFunc exFS false
    rfl rfl (by decide)
  simpa using h

theorem modify_error_of_metric_check {a : RawArgs} {fs : FS} {cav : Bool}
    {m : Option String} {e : Err} (hm : default_metric a = Except.ok m)
    (hc : metric_check a.dataset_type m = Except.error e) :
    modify_train_args a fs cav = Except.error e := by
  unfold modify_train_args
  rw [hm]
  show metric_check a.dataset_type m >>= _ = Except.error e
  rw [hc]
  rfl

/-- Counterexample to claim C4: classification with the regression metric
rmse and a checkpoint directory that contains zero `model.pt` artifacts
fails with the metric-compatibility error, not with
`NoCheckpointsFoundError` — the metric check runs before checkpoint
discovery. -/
theorem incompatible_metric_preempts_checkpoint_scan_cex :
    modify_train_args exBadMetricWithCkpt exFSEmptyCkpt false =
        Except.error (Err.incompatibleMetric (some "rmse") "classification") ∧
      modify_train_args exBadMetricWithCkpt exFSEmptyCkpt false ≠
        Except.error (Err.noCheckpointsFound "ckpt") ∧
      collect_model_pt (exFSEmptyCkpt.walk "ckpt") = [] := by
  refine ⟨by rfl, ?_, by rfl⟩
  intro hcontra
  rw [show modify_train_args exBadMetricWithCkpt exFSEmptyCkpt false =
        Except.error (Err.incompatibleMetric (some "rmse") "classification") from rfl] at hcontra
  simp at hcontra

/-- Claim C4 (amended): the metric-compatibility check runs before
checkpoint discovery, so whenever the (possibly defaulted) metric fails
the compatibility check, resolution fails with that metric error for
every filesystem — in particular also when the supplied checkpoint
directory contains zero artifacts. -/
theorem metric_check_runs_before_checkpoint_scan :
    ∀ (a : RawArgs) (fs : FS) (cav : Bool) (m : Option String) (e : Err),
      default_metric a = Except.ok m →
      metric_check a.dataset_type m = Except.error e →
      modify_train_args a fs cav = Except.error e :=
  fun _ _ _ _ _ hm hc => modify_error_of_metric_check hm hc

theorem metric_check_runs_before_checkpoint_scan_witness :
    modify_train_args exBadMetricWithCkpt exFSEmptyCkpt false =
      Except.error (Err.incompatibleMetric (some "rmse") "classification") :=
  metric_check_runs_before_checkpoint_scan exBadMetricWithCkpt exFSEmptyCkpt false
    (some "rmse") (Err.incompatibleMetric (some "rmse") "classification") rfl rfl

/-- Claim C2: with a checkpoint directory supplied, resolution collects
the walk-ordered `model.pt` paths; k ≥ 1 matches set `checkpoint_paths`
to that sequence and override `ensemble_size` with k, while k = 0 fails
with `NoCheckpointsFoundError`. -/
theorem checkpoint_discovery_sets_paths_and_ensemble :
    (∀ (fs : FS) (d : String) (es : Nat),
       (collect_model_pt (fs.walk d) ≠ [] →
          update_args_from_checkpoint_dir (some d) es fs =
            Except.ok (some (collect_model_pt (fs.walk d)),
                       (collect_model_pt (fs.walk d)).length)) ∧
       (collect_model_pt (fs.walk d) = [] →
          update_args_from_checkpoint_dir (some d) es fs =
            Except.error (Err.noCheckpointsFound d))) ∧
    (∀ (a : RawArgs) (fs : FS) (cav : Bool) (out : Resolved) (d : String),
       modify_train_args a fs cav = Except.ok out → a.checkpoint_dir = some d →
         out.checkpoint_paths = some (collect_model_pt (fs.walk d)) ∧
         out.ensemble_size = (collect_model_pt (fs.walk d)).length ∧
         out.ensemble_size ≠ 0) := by
  constructor
  · intro fs d es
    constructor
    · intro hne
      have hlen : ¬(collect_model_pt (fs.walk d)).length = 0 := by simpa using hne
      simp only [update_args_from_checkpoint_dir, if_neg hlen]
    · intro he
      simp [update_args_from_checkpoint_dir, he]
  · intro a fs cav out d h hd
    obtain ⟨m, cpes, pfu, dpc, -, -, hcp, -, -, -, -, -, -, -, -, -, -, -, -, hout⟩ :=
      modify_ok_iff.mp h
    subst hout
    rw [hd] at hcp
    simp only [update_args_from_checkpoint_dir] at hcp
    split at hcp
    · exact absurd hcp (by simp)
    · rename_i hlen
      simp only [Except.ok.injEq] at hcp
      subst hcp
      exact ⟨rfl, rfl, hlen⟩

theorem checkpoint_discovery_sets_paths_and_ensemble_witness :
    update_args_from_checkpoint_dir (some "ckpt") 5 exFSTwoCkpts =
      Except.ok (some ["ckpt/model.pt", "ckpt/sub/model.pt"], 2) := by
  have h := (checkpoint_discovery_sets_paths_and_ensemble.1 exFSTwoCkpts "ckpt" 5).1
    (by decide)
  exact h.trans (by rfl)

theorem ok_bind {ε α β : Type} (x : α) (f : α → Except ε β) :
    (Except.ok x >>= f) = f x := rfl

theorem error_bind {ε α β : Type} (e : ε) (f : α → Except ε β) :
    ((Except.error e : Except ε α) >>= f) = Except.error e := rfl

theorem broadcastFn_length {sep : Bool} {xs : List ℚ}
    (h1 : 1 ≤ xs.length) (h2 : xs.length ≤ 1 + (if sep then 1 else 0)) :
    (broadcastFn sep xs).length = 1 + (if sep then 1 else 0) := by
  unfold broadcastFn
  by_cases hc : sep = true ∧ xs.length = 1
  · rw [if_pos hc]
    simp [hc.1, hc.2]
  · rw [if_neg hc]
    cases sep
    · simp at h2 ⊢
      omega
    · simp at hc h2 ⊢
      omega

theorem scale_lr_length (xs ys : List ℚ) :
    (scale_lr xs ys).length = min xs.length ys.length := by
  simp [scale_lr]

/-- Claim C3: `num_lrs` is 1 plus 1 for a separate FFN optimizer; each of
the six rate sequences must have length between 1 and `num_lrs`
(`InvalidGroupCountError` otherwise); a singleton is duplicated when two
groups exist; after broadcasting the initial/max/final rates are scaled
elementwise by the broadcast scale sequence, every resolved sequence has
exactly `num_lrs` entries, and the scale vector is consumed (it is not a
field of `Resolved`). -/
theorem lr_broadcast_and_scale :
    (∀ (a : RawArgs) (fs : FS) (cav : Bool) (out : Resolved),
       modify_train_args a fs cav = Except.ok out →
         out.num_lrs = num_lrs_of a ∧
         ((1 ≤ a.init_lr.length ∧ a.init_lr.length ≤ num_lrs_of a) ∧
          (1 ≤ a.max_lr.length ∧ a.max_lr.length ≤ num_lrs_of a) ∧
          (1 ≤ a.final_lr.length ∧ a.final_lr.length ≤ num_lrs_of a) ∧
          (1 ≤ a.lr_scaler.length ∧ a.lr_scaler.length ≤ num_lrs_of a) ∧
          (1 ≤ a.warmup_epochs.length ∧ a.warmup_epochs.length ≤ num_lrs_of a) ∧
          (1 ≤ a.weight_decay.length ∧ a.weight_decay.length ≤ num_lrs_of a)) ∧
         out.init_lr =
           scale_lr (broadcastFn out.separate_ffn_lr a.init_lr)
             (broadcastFn out.separate_ffn_lr a.lr_scaler) ∧
         out.max_lr =
           scale_lr (broadcastFn out.separate_ffn_lr a.max_lr)
             (broadcastFn out.separate_ffn_lr a.lr_scaler) ∧
         out.final_lr =
           scale_lr (broadcastFn out.separate_ffn_lr a.final_lr)
             (broadcastFn out.separate_ffn_lr a.lr_scaler) ∧
         out.warmup_epochs = broadcastFn out.separate_ffn_lr a.warmup_epochs ∧
         out.weight_decay = broadcastFn out.separate_ffn_lr a.weight_decay ∧
         out.init_lr.length = out.num_lrs ∧
         out.max_lr.length = out.num_lrs ∧
         out.final_lr.length = out.num_lrs ∧
         out.warmup_epochs.length = out.num_lrs ∧
         out.weight_decay.length = out.num_lrs) ∧
    (∀ xs : List ℚ, xs.length = 1 → broadcastFn true xs = xs ++ xs) ∧
    (∀ (a : RawArgs) (fs : FS) (cav : Bool) (m : Option String)
       (cpes : Option (List String) × Nat) (pfu : Bool × Bool),
       default_metric a = Except.ok m →
       metric_check a.dataset_type m = Except.ok () →
       update_args_from_checkpoint_dir a.checkpoint_dir a.ensemble_size fs =
         Except.ok cpes →
       jtnn_vocab_check a.jtnn a.vocab_path fs = Except.ok () →
       feature_flags_step a = Except.ok pfu →
       ¬((1 ≤ a.init_lr.length ∧ a.init_lr.length ≤ num_lrs_of a) ∧
         (1 ≤ a.max_lr.length ∧ a.max_lr.length ≤ num_lrs_of a) ∧
         (1 ≤ a.final_lr.length ∧ a.final_lr.length ≤ num_lrs_of a) ∧
         (1 ≤ a.lr_scaler.length ∧ a.lr_scaler.length ≤ num_lrs_of a) ∧
         (1 ≤ a.warmup_epochs.length ∧ a.warmup_epochs.length ≤ num_lrs_of a) ∧
         (1 ≤ a.weight_decay.length ∧ a.weight_decay.length ≤ num_lrs_of a)) →
       modify_train_args a fs cav = Except.error Err.invalidGroupCount) := by
  refine ⟨?_, ?_, ?_⟩
  · intro a fs cav out h
    obtain ⟨m, cpes, pfu, dpc, -, -, -, -, -, hb1, hb2, hb3, hb4, hb5, hb6, -, -, -, -,
      hout⟩ := modify_ok_iff.mp h
    subst hout
    refine ⟨rfl, ⟨hb1, hb2, hb3, hb4, hb5, hb6⟩, rfl, rfl, rfl, rfl, rfl, ?_, ?_, ?_, ?_, ?_⟩
    · show (scale_lr (broadcastFn _ a.init_lr) (broadcastFn _ a.lr_scaler)).length = _
      rw [scale_lr_length, broadcastFn_length hb1.1 hb1.2, broadcastFn_length hb4.1 hb4.2,
        min_self]
      rfl
    · show (scale_lr (broadcastFn _ a.max_lr) (broadcastFn _ a.lr_scaler)).length = _
      rw [scale_lr_length, broadcastFn_length hb2.1 hb2.2, broadcastFn_length hb4.1 hb4.2,
        min_self]
      rfl
    · show (scale_lr (broadcastFn _ a.final_lr) (broadcastFn _ a.lr_scaler)).length = _
      rw [scale_lr_length, broadcastFn_length hb3.1 hb3.2, broadcastFn_length hb4.1 hb4.2,
        min_self]
      rfl
    · exact broadcastFn_length hb5.1 hb5.2
    · exact broadcastFn_length hb6.1 hb6.2
  · intro xs hx
    simp [broadcastFn, hx]
  · intro a fs cav m cpes pfu hm hmc hcp hjt hff hbad
    unfold modify_train_args
    simp only [hm, hmc, hcp, hjt, hff, ok_bind]
    cases hb1 : broadcast_lr (if a.dataset_type = "unsupervised" then true
        else a.separate_ffn_lr)
        (1 + if (if a.dataset_type = "unsupervised" then true else a.separate_ffn_lr)
          then 1 else 0) a.init_lr with
    | error e1 =>
        simp only [hb1, error_bind]
        rcases broadcast_lr_error.mp hb1 with ⟨-, rfl⟩
        rfl
    | ok i0 =>
      simp only [hb1, ok_bind]
      cases hb2 : broadcast_lr (if a.dataset_type = "unsupervised" then true
          else a.separate_ffn_lr)
          (1 + if (if a.dataset_type = "unsupervised" then true else a.separate_ffn_lr)
            then 1 else 0) a.max_lr with
      | error e2 =>
          simp only [hb2, error_bind]
          rcases broadcast_lr_error.mp hb2 with ⟨-, rfl⟩
          rfl
      | ok m0 =>
        simp only [hb2, ok_bind]
        cases hb3 : broadcast_lr (if a.dataset_type = "unsupervised" then true
            else a.separate_ffn_lr)
            (1 + if (if a.dataset_type = "unsupervised" then true else a.separate_ffn_lr)
              then 1 else 0) a.final_lr with
        | error e3 =>
            simp only [hb3, error_bind]
            rcases broadcast_lr_error.mp hb3 with ⟨-, rfl⟩
            rfl
        | ok f0 =>
          simp only [hb3, ok_bind]
          cases hb4 : broadcast_lr (if a.dataset_type = "unsupervised" then true
              else a.separate_ffn_lr)
              (1 + if (if a.dataset_type = "unsupervised" then true else a.separate_ffn_lr)
                then 1 else 0) a.lr_scaler with
          | error e4 =>
              simp only [hb4, error_bind]
              rcases broadcast_lr_error.mp hb4 with ⟨-, rfl⟩
              rfl
          | ok s0 =>
            simp only [hb4, ok_bind]
            cases hb5 : broadcast_lr (if a.dataset_type = "unsupervised" then true
                else a.separate_ffn_lr)
                (1 + if (if a.dataset_type = "unsupervised" then true
                  else a.separate_ffn_lr) then 1 else 0) a.warmup_epochs with
            | error e5 =>
                simp only [hb5, error_bind]
                rcases broadcast_lr_error.mp hb5 with ⟨-, rfl⟩
                rfl
            | ok w0 =>
              simp only [hb5, ok_bind]
              cases hb6 : broadcast_lr (if a.dataset_type = "unsupervised" then true
                  else a.separate_ffn_lr)
                  (1 + if (if a.dataset_type = "unsupervised" then true
                    else a.separate_ffn_lr) then 1 else 0) a.weight_decay with
              | error e6 =>
                  simp only [hb6, error_bind]
                  rcases broadcast_lr_error.mp hb6 with ⟨-, rfl⟩
                  rfl
              | ok d0 =>
                exact absurd ⟨(broadcast_lr_ok.mp hb1).1, (broadcast_lr_ok.mp hb2).1,
                  (broadcast_lr_ok.mp hb3).1, (broadcast_lr_ok.mp hb4).1,
                  (broadcast_lr_ok.mp hb5).1, (broadcast_lr_ok.mp hb6).1⟩ hbad

theorem lr_broadcast_and_scale_witness :
    modify_train_args exBadLrLen exFS false = Except.error Err.invalidGroupCount :=
  lr_broadcast_and_scale.2.2 exBadLrLen exFS false (some "rmse") (none, 1) (false, false)
    rfl rfl rfl rfl rfl (by decide)

/-- Claim C9: an unsupervised dataset type forces the separate FFN
optimizer flag on, so there are two learning-rate groups and every rate
sequence is resolved (the scale sequence: broadcast before being
consumed) to exactly two entries. -/
theorem unsupervised_forces_two_lr_groups :
    ∀ (a : RawArgs) (fs : FS) (cav : Bool) (out : Resolved),
      modify_train_args a fs cav = Except.ok out → a.dataset_type = "unsupervised" →
        out.separate_ffn_lr = true ∧
        out.num_lrs = 2 ∧
        out.init_lr.length = 2 ∧
        out.max_lr.length = 2 ∧
        out.final_lr.length = 2 ∧
        out.warmup_epochs.length = 2 ∧
        out.weight_decay.length = 2 ∧
        (broadcastFn true a.lr_scaler).length = 2 := by
  intro a fs cav out h hdt
  obtain ⟨m, cpes, pfu, dpc, -, -, -, -, -, hb1, hb2, hb3, hb4, hb5, hb6, -, -, -, -,
    hout⟩ := modify_ok_iff.mp h
  subst hout
  have hsep : (if a.dataset_type = "unsupervised" then true else a.separate_ffn_lr)
      = true := by
    rw [hdt]
    simp
  have hfix : ∀ xs : List ℚ, 1 ≤ xs.length → xs.length ≤ num_lrs_of a →
      (broadcastFn (if a.dataset_type = "unsupervised" then true
        else a.separate_ffn_lr) xs).length = 2 := by
    intro xs h1 h2
    rw [broadcastFn_length h1 h2, hsep]
    rfl
  refine ⟨hsep, ?_, ?_, ?_, ?_, ?_, ?_, ?_⟩
  · show 1 + (if (if a.dataset_type = "unsupervised" then true else a.separate_ffn_lr)
      then 1 else 0) = 2
    rw [hsep]
    rfl
  · show (scale_lr (broadcastFn _ a.init_lr) (broadcastFn _ a.lr_scaler)).length = 2
    rw [scale_lr_length, hfix _ hb1.1 hb1.2, hfix _ hb4.1 hb4.2, min_self]
  · show (scale_lr (broadcastFn _ a.max_lr) (broadcastFn _ a.lr_scaler)).length = 2
    rw [scale_lr_length, hfix _ hb2.1 hb2.2, hfix _ hb4.1 hb4.2, min_self]
  · show (scale_lr (broadcastFn _ a.final_lr) (broadcastFn _ a.lr_scaler)).length = 2
    rw [scale_lr_length, hfix _ hb3.1 hb3.2, hfix _ hb4.1 hb4.2, min_self]
  · exact hfix _ hb5.1 hb5.2
  · exact hfix _ hb6.1 hb6.2
  · rw [← hsep]
    exact hfix _ hb4.1 hb4.2

theorem unsupervised_forces_two_lr_groups_witness :
    Except.map
        (fun o => (o.separate_ffn_lr, o.num_lrs, o.init_lr.length, o.warmup_epochs.length))
        (modify_train_args exUnsupervised exFS false) =
      Except.ok (true, 2, 2, 2) := by
  obtain ⟨out, hout⟩ : ∃ out, modify_train_args exUnsupervised exFS false = Except.ok out :=
    ⟨_, rfl⟩
  have h := unsupervised_forces_two_lr_groups exUnsupervised exFS false out hout rfl
  rw [hout]
  simp [Except.map, h.1, h.2.1, h.2.2.1, h.2.2.2.2.2.1]

/-- Claim C7: resolution enforces that `split_type = scaffold_overlap`
holds iff an overlap proportion was supplied, and the three-way
equivalence between `split_type = predetermined`, a folds file being
supplied and a test-fold index being supplied; the predetermined /
folds-file-only scenario fails with `InvalidSplitConfigurationError`. -/
theorem split_type_consistency :
    (∀ (a : RawArgs) (fs : FS) (cav : Bool) (out : Resolved),
       modify_train_args a fs cav = Except.ok out →
         split_overlap_ok a = true ∧ split_predetermined_ok a = true) ∧
    (∀ (a : RawArgs) (fs : FS) (cav : Bool) (out : Resolved),
       (split_overlap_ok a = false ∨ split_predetermined_ok a = false) →
       modify_train_args a fs cav ≠ Except.ok out) ∧
    (modify_train_args exPredeterminedNoIdx exFS false =
       Except.error Err.invalidSplitConfiguration) := by
  refine ⟨?_, ?_, by rfl⟩
  · intro a fs cav out h
    obtain ⟨m, cpes, pfu, dpc, -, -, -, -, -, -, -, -, -, -, -, -, hs1, hs2, -, -⟩ :=
      modify_ok_iff.mp h
    exact ⟨hs1, hs2⟩
  · intro a fs cav out hbad h
    obtain ⟨m, cpes, pfu, dpc, -, -, -, -, -, -, -, -, -, -, -, -, hs1, hs2, -, -⟩ :=
      modify_ok_iff.mp h
    rcases hbad with hb | hb <;> simp [hb] at hs1 hs2

theorem split_type_consistency_witness :
    split_overlap_ok exBase = true ∧ split_predetermined_ok exBase = true := by
  obtain ⟨out, hout⟩ : ∃ out, modify_train_args exBase exFS false = Except.ok out :=
    ⟨_, rfl⟩
  exact split_type_consistency.1 exBase exFS false out hout

/-- Counterexample to claim C5: a feature-based kernel function alone
(no feature-prediction pretraining mode requested, a features path
present) does change `use_input_features`: the resolved value is false
even though an input-feature source was specified. -/
theorem kernel_forces_use_input_features_false_cex :
    Except.map (fun o => o.use_input_features)
        (modify_train_args exKernelFeatures exFS false) = Except.ok false ∧
      truthyStr exKernelFeatures.features_path = true ∧
      exKernelFeatures.predict_features = false ∧
      exKernelFeatures.predict_features_and_task = false := ⟨rfl, rfl, rfl, rfl⟩

/-- The final value of `use_input_features` produced by lines 371-383, as
a function of the final `predict_features` value and the raw fields. -/
theorem feature_flags_uif {a : RawArgs} {pf uif : Bool}
    (h : feature_flags_step a = Except.ok (pf, uif)) :
    uif = ((truthyList a.features_generator || truthyStr a.features_path) &&
           !(pf || decide (a.kernel_func ∈ ([some "features", some "features_dot"] :
             List (Option String)))) &&
           !(decide (a.dataset_type = "bert_pretraining"))) := by
  by_cases hpft : a.predict_features_and_task = true <;>
  by_cases hreg : a.dataset_type = "regression" <;>
  by_cases hbert : a.dataset_type = "bert_pretraining" <;>
  by_cases hk : a.kernel_func ∈ ([some "features", some "features_dot"] :
    List (Option String)) <;>
  by_cases hapf : a.predict_features = true <;>
  by_cases htr : (truthyList a.features_generator || truthyStr a.features_path) = true <;>
  by_cases hfo : a.features_only = true <;>
  simp_all [feature_flags_step]

/-- Claim C5 (amended): `use_input_features` starts as the truthiness of
the features generator / features path pair and is forced to false
exactly when a feature-prediction pretraining mode is requested, or the
kernel function is feature-based, or the dataset type is bert-style
pretraining; a feature-prediction mode or feature-based kernel without
an input-feature source fails with `MissingFeatureSourceError`. -/
theorem use_input_features_resolution :
    (∀ (a : RawArgs) (fs : FS) (cav : Bool) (out : Resolved),
       modify_train_args a fs cav = Except.ok out →
         out.use_input_features =
           ((truthyList a.features_generator || truthyStr a.features_path) &&
            !(out.predict_features ||
              decide (a.kernel_func ∈ ([some "features", some "features_dot"] :
                List (Option String)))) &&
            !(decide (a.dataset_type = "bert_pretraining")))) ∧
    (∀ a : RawArgs,
       (a.predict_features_and_task = true → a.dataset_type = "regression") →
       (a.predict_features = true ∨ a.predict_features_and_task = true ∨
         a.kernel_func ∈ ([some "features", some "features_dot"] :
           List (Option String))) →
       truthyList a.features_generator = false →
       truthyStr a.features_path = false →
       feature_flags_step a = Except.error Err.missingFeatureSource) := by
  constructor
  · intro a fs cav out h
    obtain ⟨m, cpes, pfu, dpc, -, -, -, -, hff, -, -, -, -, -, -, -, -, -, -, hout⟩ :=
      modify_ok_iff.mp h
    subst hout
    obtain ⟨pf, uif⟩ := pfu
    exact feature_flags_uif hff
  · intro a hpftreg hcond hg hp
    have htr : (truthyList a.features_generator || truthyStr a.features_path) = false := by
      simp [hg, hp]
    by_cases hpft : a.predict_features_and_task = true
    · have hreg := hpftreg hpft
      simp [feature_flags_step, hpft, hreg, htr]
    · rcases hcond with hpf | hpft2 | hk
      · simp [feature_flags_step, hpft, hpf, htr]
      · exact absurd hpft2 hpft
      · simp [feature_flags_step, hpft, hk, htr]

theorem use_input_features_resolution_witness :
    feature_flags_step exKernelNoSource = Except.error Err.missingFeatureSource :=
  use_input_features_resolution.2 exKernelNoSource (fun h => absurd h (by decide))
    (Or.inr (Or.inr (by decide))) rfl rfl

/-- Claim C6 (code evaluation at the failing input): junction-tree mode
with no vocabulary path supplied does not produce the intended
missing-vocabulary error; because argparse always sets the `vocab_path`
attribute, the `hasattr` guard never fires and the code reaches
`os.path.exists(None)`, which raises an untyped `TypeError`. -/
theorem jtnn_missing_vocab_path_raises_type_error :
    modify_train_args exJtnnNoVocab exFS false = Except.error Err.typeError ∧
      exJtnnNoVocab.jtnn = true ∧
      exJtnnNoVocab.vocab_path = none ∧
      jtnn_vocab_check true (some "v.vocab") exFS =
        Except.error (Err.missingVocabulary "v.vocab") ∧
      (∀ p : String, ∀ fs : FS, fs.pathExists p = true →
        jtnn_vocab_check true (some p) fs = Except.ok ()) := by
  refine ⟨rfl, rfl, rfl, rfl, ?_⟩
  intro p fs hp
  simp [jtnn_vocab_check, vocab_path_attr_present, hp]

/-- Claim C10: when `data_path` names a directory the replacement file is
drawn from the first walked root; a first root with no regular files
crashes resolution with the untyped out-of-bounds `IndexError` rather
than a typed configuration error. -/
theorem chunk_dir_first_root_and_index_error :
    (∀ (dp : String) (fs : FS) (root : String) (rest : List (String × List String)),
       fs.isDir dp = true → fs.walk dp = (root, []) :: rest →
       chunk_step dp fs = Except.error Err.indexError) ∧
    (∀ (dp : String) (fs : FS) (root n0 : String) (ns : List String)
       (rest : List (String × List String)),
       fs.isDir dp = true → fs.walk dp = (root, n0 :: ns) :: rest →
       chunk_step dp fs = Except.ok (pathJoin root n0, some dp)) ∧
    (modify_train_args exChunk exFSChunkDirEmpty false = Except.error Err.indexError) := by
  refine ⟨?_, ?_, by rfl⟩
  · intro dp fs root rest hdir hw
    simp [chunk_step, hdir, hw]
  · intro dp fs root n0 ns rest hdir hw
    simp [chunk_step, hdir, hw]

theorem chunk_dir_first_root_and_index_error_witness :
    chunk_step "chunks" exFSChunkDirEmpty = Except.error Err.indexError :=
  chunk_dir_first_root_and_index_error.1 "chunks" exFSChunkDirEmpty "chunks" [] rfl rfl

theorem default_metric_isSome {a : RawArgs} {m : Option String}
    (h : default_metric a = Except.ok m) : ∃ s, m = some s := by
  cases hmet : a.metric with
  | some s =>
      simp [default_metric, hmet] at h
      exact ⟨s, h.symm⟩
  | none =>
      simp [default_metric, hmet] at h
      split_ifs at h <;> exact ⟨_, (Except.ok.inj h).symm⟩

theorem default_metric_of_some {a : RawArgs} {s : String} (h : a.metric = some s) :
    default_metric a = Except.ok (some s) := by
  simp [default_metric, h]

theorem update_args_idem {cd : Option String} {es es2 : Nat}
    {cp : Option (List String)} {fs : FS}
    (h : update_args_from_checkpoint_dir cd es fs = Except.ok (cp, es2)) :
    update_args_from_checkpoint_dir cd es2 fs = Except.ok (cp, es2) := by
  cases cd with
  | none =>
      simp only [update_args_from_checkpoint_dir, Except.ok.injEq, Prod.mk.injEq] at h ⊢
      exact ⟨h.1, trivial⟩
  | some d =>
      simp only [update_args_from_checkpoint_dir] at h ⊢
      exact h

theorem feature_flags_congr {a1 a2 : RawArgs}
    (h1 : a1.features_generator = a2.features_generator)
    (h2 : a1.features_path = a2.features_path)
    (h3 : a1.predict_features_and_task = a2.predict_features_and_task)
    (h4 : a1.dataset_type = a2.dataset_type)
    (h5 : a1.predict_features = a2.predict_features)
    (h6 : a1.kernel_func = a2.kernel_func)
    (h7 : a1.features_only = a2.features_only) :
    feature_flags_step a1 = feature_flags_step a2 := by
  unfold feature_flags_step
  rw [h1, h2, h3, h4, h5, h6, h7]

theorem feature_flags_idem {a : RawArgs} {pf uif : Bool}
    (h : feature_flags_step a = Except.ok (pf, uif)) :
    feature_flags_step { a with predict_features := pf } = Except.ok (pf, uif) := by
  by_cases hpft : a.predict_features_and_task = true <;>
  by_cases hreg : a.dataset_type = "regression" <;>
  by_cases hbert : a.dataset_type = "bert_pretraining" <;>
  by_cases hk : a.kernel_func ∈ ([some "features", some "features_dot"] :
    List (Option String)) <;>
  by_cases hapf : a.predict_features = true <;>
  by_cases htr : (truthyList a.features_generator || truthyStr a.features_path) = true <;>
  by_cases hfo : a.features_only = true <;>
  simp_all [feature_flags_step]

theorem broadcastFn_of_length {sep : Bool} {xs : List ℚ}
    (h : xs.length = 1 + (if sep then 1 else 0)) : broadcastFn sep xs = xs := by
  unfold broadcastFn
  cases sep
  · simp
  · simp at h
    simp [h]

theorem broadcastFn_one (sep : Bool) :
    broadcastFn sep [(1 : ℚ)] = List.replicate (1 + if sep then 1 else 0) 1 := by
  cases sep <;> rfl

theorem scale_lr_one {xs : List ℚ} {n : Nat} (h : xs.length = n) :
    scale_lr xs (List.replicate n 1) = xs := by
  induction xs generalizing n with
  | nil => simp [scale_lr]
  | cons x tl ih =>
      cases n with
      | zero => simp at h
      | succ k =>
          have htl : tl.length = k := by simpa using h
          show (x * 1) ::
              List.zipWith (fun x s => x * s) tl (List.replicate k 1) = x :: tl
          rw [mul_one]
          exact congrArg (List.cons x) (ih htl)

/-- Counterexample to claim C8: when `data_path` names a chunk directory,
resolution rewrites `data_path` to a contained file, so re-resolving the
resolved configuration's equivalent raw bag yields
`prespecified_chunk_dir = none` where the first resolution produced the
chunk directory — the two resolved configurations differ. -/
theorem resolution_not_idempotent_on_chunk_dir_cex :
    Except.bind (modify_train_args exChunk exFSChunkDir false)
        (fun o =>
          Except.map (fun o2 => (o.prespecified_chunk_dir, o2.prespecified_chunk_dir))
            (modify_train_args (toRawBag o) exFSChunkDir false)) =
      Except.ok (some "chunks", none) := by rfl

/-- Claim C8 (amended): resolution is idempotent for every raw bag whose
`data_path` is not a directory: re-running resolution on the resolved
configuration's equivalent raw bag returns the identical resolved
configuration (in particular the learning-rate sequences are not
re-broadcast or re-scaled); when `data_path` names a directory the
rewritten `data_path` is a file, so the re-run resolves
`prespecified_chunk_dir` to `none` and idempotence fails. -/
theorem resolution_idempotent_on_nondir_data_path :
    ∀ (a : RawArgs) (fs : FS) (cav : Bool) (out : Resolved),
      fs.isDir a.data_path = false →
      modify_train_args a fs cav = Except.ok out →
      modify_train_args (toRawBag out) fs cav = Except.ok out := by
  intro a fs cav out hdir h
  obtain ⟨m, cpes, pfu, dpc, hm, hmc, hcp, hjt, hff, hb1, hb2, hb3, hb4, hb5, hb6,
    hffn, hs1, hs2, hdpc, hout⟩ := modify_ok_iff.mp h
  obtain ⟨cp, es⟩ := cpes
  obtain ⟨pf, uif⟩ := pfu
  have hchunk : chunk_step a.data_path fs = Except.ok (a.data_path, none) := by
    unfold chunk_step
    rw [if_neg (by simp [hdir])]
  obtain rfl : dpc = (a.data_path, none) := by
    rw [hchunk] at hdpc
    exact (Except.ok.inj hdpc).symm
  subst hout
  obtain ⟨s, rfl⟩ := default_metric_isSome hm
  have hsep2 : (if a.dataset_type = "unsupervised" then true
      else if a.dataset_type = "unsupervised" then true else a.separate_ffn_lr) =
      (if a.dataset_type = "unsupervised" then true else a.separate_ffn_lr) := by
    by_cases hu : a.dataset_type = "unsupervised" <;> simp [hu]
  have hone : 1 ≤ num_lrs_of a := Nat.le_add_right 1 _
  have hIlen : (scale_lr
      (broadcastFn (if a.dataset_type = "unsupervised" then true else a.separate_ffn_lr)
        a.init_lr)
      (broadcastFn (if a.dataset_type = "unsupervised" then true else a.separate_ffn_lr)
        a.lr_scaler)).length = num_lrs_of a := by
    rw [scale_lr_length, broadcastFn_length hb1.1 hb1.2, broadcastFn_length hb4.1 hb4.2,
      min_self]
    rfl
  have hMlen : (scale_lr
      (broadcastFn (if a.dataset_type = "unsupervised" then true else a.separate_ffn_lr)
        a.max_lr)
      (broadcastFn (if a.dataset_type = "unsupervised" then true else a.separate_ffn_lr)
        a.lr_scaler)).length = num_lrs_of a := by
    rw [scale_lr_length, broadcastFn_length hb2.1 hb2.2, broadcastFn_length hb4.1 hb4.2,
      min_self]
    rfl
  have hFlen : (scale_lr
      (broadcastFn (if a.dataset_type = "unsupervised" then true else a.separate_ffn_lr)
        a.final_lr)
      (broadcastFn (if a.dataset_type = "unsupervised" then true else a.separate_ffn_lr)
        a.lr_scaler)).length = num_lrs_of a := by
    rw [scale_lr_length, broadcastFn_length hb3.1 hb3.2, broadcastFn_length hb4.1 hb4.2,
      min_self]
    rfl
  have hWlen : (broadcastFn
      (if a.dataset_type = "unsupervised" then true else a.separate_ffn_lr)
      a.warmup_epochs).length = num_lrs_of a := by
    rw [broadcastFn_length hb5.1 hb5.2]
    rfl
  have hDlen : (broadcastFn
      (if a.dataset_type = "unsupervised" then true else a.separate_ffn_lr)
      a.weight_decay).length = num_lrs_of a := by
    rw [broadcastFn_length hb6.1 hb6.2]
    rfl
  have hep : (if a.test then (0 : Nat) else if a.test then 0 else a.epochs) =
      (if a.test then 0 else a.epochs) := by
    by_cases ht : a.test = true <;> simp [ht]
  have hnA : num_lrs_of (toRawBag (resolvedOf a fs cav (some s) (cp, es) (pf, uif)
      (a.data_path, none))) = num_lrs_of a := by
    show 1 + (if (if a.dataset_type = "unsupervised" then true
        else if a.dataset_type = "unsupervised" then true else a.separate_ffn_lr)
      then 1 else 0) = num_lrs_of a
    rw [hsep2]
    rfl
  refine modify_ok_iff.mpr ⟨some s, (cp, es), (pf, uif), (a.data_path, none),
    default_metric_of_some rfl, hmc, update_args_idem hcp, hjt,
    (feature_flags_congr rfl rfl rfl rfl rfl rfl rfl).trans (feature_flags_idem hff),
    ?_, ?_, ?_, ?_, ?_, ?_, hffn, hs1, hs2, hchunk, ?_⟩
  · constructor
    · show 1 ≤ (scale_lr (broadcastFn _ a.init_lr) (broadcastFn _ a.lr_scaler)).length
      rw [hIlen]
      exact hone
    · show (scale_lr (broadcastFn _ a.init_lr) (broadcastFn _ a.lr_scaler)).length ≤ _
      rw [hIlen, hnA]
  · constructor
    · show 1 ≤ (scale_lr (broadcastFn _ a.max_lr) (broadcastFn _ a.lr_scaler)).length
      rw [hMlen]
      exact hone
    · show (scale_lr (broadcastFn _ a.max_lr) (broadcastFn _ a.lr_scaler)).length ≤ _
      rw [hMlen, hnA]
  · constructor
    · show 1 ≤ (scale_lr (broadcastFn _ a.final_lr) (broadcastFn _ a.lr_scaler)).length
      rw [hFlen]
      exact hone
    · show (scale_lr (broadcastFn _ a.final_lr) (broadcastFn _ a.lr_scaler)).length ≤ _
      rw [hFlen, hnA]
  · constructor
    · show (1 : Nat) ≤ 1
      exact le_refl 1
    · show ([(1 : ℚ)]).length ≤ _
      rw [hnA]
      simpa using hone
  · constructor
    · show 1 ≤ (broadcastFn _ a.warmup_epochs).length
      rw [hWlen]
      exact hone
    · show (broadcastFn _ a.warmup_epochs).length ≤ _
      rw [hWlen, hnA]
  · constructor
    · show 1 ≤ (broadcastFn _ a.weight_decay).length
      rw [hDlen]
      exact hone
    · show (broadcastFn _ a.weight_decay).length ≤ _
      rw [hDlen, hnA]
  · have hIlen2 : (scale_lr
        (broadcastFn (if a.dataset_type = "unsupervised" then true else a.separate_ffn_lr)
          a.init_lr)
        (broadcastFn (if a.dataset_type = "unsupervised" then true else a.separate_ffn_lr)
          a.lr_scaler)).length = 1 + (if (if a.dataset_type = "unsupervised" then true
            else a.separate_ffn_lr) then 1 else 0) := hIlen
    have hMlen2 : (scale_lr
        (broadcastFn (if a.dataset_type = "unsupervised" then true else a.separate_ffn_lr)
          a.max_lr)
        (broadcastFn (if a.dataset_type = "unsupervised" then true else a.separate_ffn_lr)
          a.lr_scaler)).length = 1 + (if (if a.dataset_type = "unsupervised" then true
            else a.separate_ffn_lr) then 1 else 0) := hMlen
    have hFlen2 : (scale_lr
        (broadcastFn (if a.dataset_type = "unsupervised" then true else a.separate_ffn_lr)
          a.final_lr)
        (broadcastFn (if a.dataset_type = "unsupervised" then true else a.separate_ffn_lr)
          a.lr_scaler)).length = 1 + (if (if a.dataset_type = "unsupervised" then true
            else a.separate_ffn_lr) then 1 else 0) := hFlen
    have hWlen2 : (broadcastFn
        (if a.dataset_type = "unsupervised" then true else a.separate_ffn_lr)
        a.warmup_epochs).length = 1 + (if (if a.dataset_type = "unsupervised" then true
          else a.separate_ffn_lr) then 1 else 0) := hWlen
    have hDlen2 : (broadcastFn
        (if a.dataset_type = "unsupervised" then true else a.separate_ffn_lr)
        a.weight_decay).length = 1 + (if (if a.dataset_type = "unsupervised" then true
          else a.separate_ffn_lr) then 1 else 0) := hDlen
    simp only [resolvedOf, toRawBag, Resolved.mk.injEq]
    repeat' apply And.intro
    all_goals first
      | rfl
      | (rw [hsep2]; done)
      | (rw [hsep2, broadcastFn_of_length hWlen2]; done)
      | (rw [hsep2, broadcastFn_of_length hDlen2]; done)
      | (rw [hsep2, broadcastFn_of_length hIlen2, broadcastFn_one, scale_lr_one hIlen2];
         done)
      | (rw [hsep2, broadcastFn_of_length hMlen2, broadcastFn_one, scale_lr_one hMlen2];
         done)
      | (rw [hsep2, broadcastFn_of_length hFlen2, broadcastFn_one, scale_lr_one hFlen2];
         done)
      | (cases hnc : a.no_cuda <;> cases cav <;> rfl)
      | (cases hts : a.no_target_scaling <;> rfl)
      | (cases hfsc : a.no_features_scaling <;> rfl)
      | (by_cases ht : a.test = true <;> simp [ht])

theorem resolution_idempotent_on_nondir_data_path_witness :
    Except.bind (modify_train_args exBase exFS false)
        (fun o => modify_train_args (toRawBag o) exFS false) =
      modify_train_args exBase exFS false := by
  obtain ⟨out, hout⟩ : ∃ out, modify_train_args exBase exFS false = Except.ok out :=
    ⟨_, rfl⟩
  rw [hout]
  show modify_train_args (toRawBag out) exFS false = Except.ok out
  exact resolution_idempotent_on_nondir_data_path exBase exFS false out rfl hout
